import Mathlib

/-!
Verification development for the vllmd hypervisor crate
(`src/crates/vllmd-hypervisor-rs/src/hypervisor.rs` and `main.rs`).

The Rust code is shallowly embedded: strings are modelled as `List Char`
(or `String` where no computation happens), `u64` values as `Nat` with an
explicit `< 2 ^ 64` bound where the Rust parse would reject overflow, and
fallible operations as `Except`-returning functions.  External effects
(filesystem existence checks, Cloud Hypervisor API calls, event-fd
operations, thread spawning and joining) are modelled by oracle
parameters recording whether each individual call succeeds; the embedded
functions reproduce the control flow of the source exactly, including
which failures are propagated with `?` and which are merely logged.
Error payloads (the formatted message strings) are dropped: only the
variant of `HypervisorError` (and the site of the `anyhow!` error in the
memory parser) is tracked, which is all the claims refer to.
-/

namespace Vllmd

/-- Decidable equality for `Except`, used to evaluate the embedded
functions on concrete inputs. -/
instance {ε α : Type} [DecidableEq ε] [DecidableEq α] : DecidableEq (Except ε α)
  | .ok a, .ok b =>
    if h : a = b then .isTrue (congrArg _ h)
    else .isFalse fun hh => h (Except.ok.inj hh)
  | .ok _, .error _ => .isFalse fun hh => Except.noConfusion hh
  | .error _, .ok _ => .isFalse fun hh => Except.noConfusion hh
  | .error a, .error b =>
    if h : a = b then .isTrue (congrArg _ h)
    else .isFalse fun hh => h (Except.error.inj hh)

/-! ### Memory descriptor parsing (`parse_memory_string`, hypervisor.rs:521-579)

The parser returns `anyhow` errors produced at five distinct sites; those
sites are represented by the constructors of `ParseErr`.
-/

/-- Error sites of `parse_memory_string`: the malformed `key=value` pair
check, the size-unit match fallthrough, the numeric-parse failure, and the
two unrecognized-boolean-token matches (for `shared` and `hugepages`). -/
inductive ParseErr where
  | invalidFormat
  | invalidSizeUnit
  | sizeParseFailure
  | invalidSharedValue
  | invalidHugepagesValue
deriving DecidableEq

/-- Mirrors `MemoryConfig` (hypervisor.rs:583-595); `size` is a `u64` in
the source, modelled as `Nat` (the parser itself rejects numbers that do
not fit in a `u64`). -/
structure MemoryConfig where
  size : Nat
  shared : Bool
  hugepages : Bool
  shared_memory_size : Option Nat
deriving DecidableEq

/-- The initial value built at hypervisor.rs:523-528: default 16G, not
shared, no hugepages. -/
def defaultMemoryConfig : MemoryConfig :=
  { size := 16 * 1024 * 1024 * 1024
    shared := false
    hugepages := false
    shared_memory_size := none }

/-- ASCII whitespace, modelling Rust `str::trim` on the ASCII inputs this
parser receives. -/
def isWs (c : Char) : Bool :=
  c = ' ' || c = '\t' || c = '\n' || c = '\r'

/-- Rust `str::trim` on a character list. -/
def trimChars (l : List Char) : List Char :=
  ((l.dropWhile isWs).reverse.dropWhile isWs).reverse

/-- Rust `char::is_digit(10)`. -/
def isDigit10 (c : Char) : Bool :=
  '0' ≤ c && c ≤ '9'

/-- Rust `char::is_alphabetic`, restricted to ASCII.  In the source it is
only evaluated on characters that already matched the size-unit arms
(`K/k/M/m/G/g/T/t`, all ASCII-alphabetic) or the decimal-digit guard (not
alphabetic), so the ASCII restriction is exact on every reachable input. -/
def isAsciiAlpha (c : Char) : Bool :=
  ('a' ≤ c && c ≤ 'z') || ('A' ≤ c && c ≤ 'Z')

/-- Rust `str::split(sep)`: an empty input yields one empty piece, and
every separator starts a new piece. -/
def splitOnChar (sep : Char) : List Char → List (List Char)
  | [] => [[]]
  | c :: rest =>
    let r := splitOnChar sep rest
    if c = sep then [] :: r
    else
      match r with
      | [] => [[c]]
      | h :: t => (c :: h) :: t

/-- Worker for `splitnTwoEq`, accumulating the characters seen before the
first separator (in reverse). -/
def splitnTwoEqGo (acc : List Char) : List Char → List (List Char)
  | [] => [acc.reverse]
  | c :: rest =>
    if c = '=' then [acc.reverse, rest]
    else splitnTwoEqGo (c :: acc) rest

/-- Rust `str::splitn(2, '=')` collected into a vector
(hypervisor.rs:531): at most two pieces, splitting at the first `=`. -/
def splitnTwoEq (l : List Char) : List (List Char) :=
  splitnTwoEqGo [] l

/-- Numeric value of a decimal digit character. -/
def digitVal (c : Char) : Nat :=
  c.toNat - 48

/-- Value of a (known-all-digit) decimal numeral. -/
def decimalValue (l : List Char) : Nat :=
  l.foldl (fun acc c => acc * 10 + digitVal c) 0

/-- Rust `str::parse::<u64>()`: an optional leading `+`, then a nonempty
run of decimal digits, rejecting values that overflow `u64`. -/
def parseU64 (l : List Char) : Option Nat :=
  let digits := match l with | '+' :: rest => rest | _ => l
  if digits = [] then none
  else if digits.all isDigit10 then
    if decimalValue digits < 2 ^ 64 then some (decimalValue digits) else none
  else none

/-- The `match size_str.chars().last()` at hypervisor.rs:539-546: unit
suffixes `K/M/G/T` (case-insensitive) are powers of 1024, a trailing
decimal digit means the bare number is in bytes, anything else (including
an empty value) is an invalid-size-unit error. -/
def sizeMultiplier : Option Char → Except ParseErr Nat
  | some c =>
    if c = 'K' ∨ c = 'k' then .ok 1024
    else if c = 'M' ∨ c = 'm' then .ok (1024 * 1024)
    else if c = 'G' ∨ c = 'g' then .ok (1024 * 1024 * 1024)
    else if c = 'T' ∨ c = 't' then .ok (1024 * 1024 * 1024 * 1024)
    else if isDigit10 c then .ok 1
    else .error .invalidSizeUnit
  | none => .error .invalidSizeUnit

/-- The boolean token set shared verbatim by the `shared` and `hugepages`
arms (hypervisor.rs:559-561 and 566-568): `on/true/yes/1` versus
`off/false/no/0`, anything else unrecognized. -/
def parseBoolToken (v : List Char) : Option Bool :=
  if v = "on".toList ∨ v = "true".toList ∨ v = "yes".toList ∨ v = "1".toList then
    some true
  else if v = "off".toList ∨ v = "false".toList ∨ v = "no".toList ∨ v = "0".toList then
    some false
  else none

/-- Body of the `for part in memory_config.split(',')` loop
(hypervisor.rs:530-576), applied to the `splitn(2, '=')` result of one
comma-separated piece.  A pair without `=` is an invalid-format error;
`size`, `shared` and `hugepages` keys update the accumulated config (or
fail at their respective error sites); any other key is logged and
ignored. -/
def processKV (config : MemoryConfig) : List (List Char) → Except ParseErr MemoryConfig
  | [k, v] =>
    if trimChars k = "size".toList then
      let sizeStr := trimChars v
      match sizeMultiplier sizeStr.getLast? with
      | .error e => .error e
      | .ok mult =>
        let numStr :=
          if (sizeStr.getLast?.map isAsciiAlpha).getD false then sizeStr.dropLast
          else sizeStr
        match parseU64 numStr with
        | none => .error .sizeParseFailure
        | some n => .ok { config with size := n * mult }
    else if trimChars k = "shared".toList then
      match parseBoolToken (trimChars v) with
      | some b => .ok { config with shared := b }
      | none => .error .invalidSharedValue
    else if trimChars k = "hugepages".toList then
      match parseBoolToken (trimChars v) with
      | some b => .ok { config with hugepages := b }
      | none => .error .invalidHugepagesValue
    else .ok config
  | _ => .error .invalidFormat

/-- One iteration of the parse loop on a raw comma-separated piece. -/
def processPart (config : MemoryConfig) (part : List Char) : Except ParseErr MemoryConfig :=
  processKV config (splitnTwoEq part)

/-- `parse_memory_string` (hypervisor.rs:521-579) on a character list:
fold the per-part processing over the comma-split pieces, starting from
the documented defaults, stopping at the first error. -/
def parse_memory_config (l : List Char) : Except ParseErr MemoryConfig :=
  (splitOnChar ',' l).foldlM processPart defaultMemoryConfig

/-- `parse_memory_string` on a `String` input. -/
def parse_memory_string (s : String) : Except ParseErr MemoryConfig :=
  parse_memory_config s.toList

/-! ### The lifecycle controller (`HypervisorManager`, hypervisor.rs:90-512) -/

/-- `VmState` (hypervisor.rs:80-87). -/
inductive VmState where
  | Created
  | Configured
  | Running
  | Paused
  | Shutdown
  | Error
deriving DecidableEq

/-- The variants of `HypervisorError` (hypervisor.rs:21-45); the formatted
message payloads are dropped.  The source's `HypervisorError::HypervisorError`
variant is rendered `HypervisorInitError` because a constructor may not
shadow its own type name here. -/
inductive HypervisorError where
  | StartError
  | ConfigError
  | ShutdownError
  | InvalidState
  | IoError
  | ParsingError
  | HypervisorInitError
  | ApiError
deriving DecidableEq

/-- `VmConfig` (hypervisor.rs:49-76); paths are opaque strings consumed
only by the existence oracle, `vcpu_count` is a `u8` modelled as `Nat`. -/
structure VmConfig where
  id : String
  kernel_path : String
  cmdline : String
  system_image_path : String
  config_image_path : String
  vcpu_count : Nat
  memory_config : MemoryConfig
  device_paths : List String
  debug : Bool
deriving DecidableEq

/-- The mutable fields of `HypervisorManager` (hypervisor.rs:90-117) that
the lifecycle logic reads or writes.  The event fds, API channel and
hypervisor instance carry no decision-relevant state beyond presence, so
`vmm_thread_handle` is reduced to a presence flag. -/
structure ManagerState where
  state : VmState
  config : Option VmConfig
  vmm_thread_handle : Bool
  vm_created : Bool
  vm_booted : Bool
deriving DecidableEq

/-- The manager built by `HypervisorManager::new` (hypervisor.rs:132-142). -/
def initialManager : ManagerState :=
  { state := .Created
    config := none
    vmm_thread_handle := false
    vm_created := false
    vm_booted := false }

/-- `validate_config` (hypervisor.rs:166-198): the filesystem is an oracle
`fs` mapping each path to whether it exists.  Only path existence is
checked — kernel, system image, config image, then each passthrough
device path in order. -/
def validate_config (fs : String → Bool) (c : VmConfig) : Except HypervisorError Unit :=
  if !fs c.kernel_path then .error .ConfigError
  else if !fs c.system_image_path then .error .ConfigError
  else if !fs c.config_image_path then .error .ConfigError
  else if c.device_paths.any (fun p => !fs p) then .error .ConfigError
  else .ok ()

/-- `configure` (hypervisor.rs:146-163).  The pair returned is (call
result, manager state after the call); an early error leaves the state
exactly as it was, matching the `&mut self` early returns. -/
def configure (fs : String → Bool) (s : ManagerState) (c : VmConfig) :
    Except HypervisorError Unit × ManagerState :=
  if s.state ≠ .Created then (.error .InvalidState, s)
  else
    match validate_config fs c with
    | .error e => (.error e, s)
    | .ok _ => (.ok (), { s with config := some c, state := .Configured })

/-- Success/failure of each fallible external call made by `start`
(hypervisor.rs:312-413), in source order.  The `try_clone().unwrap()` at
line 377 aborts the process on failure rather than returning, so it has
no oracle entry. -/
structure StartEnv where
  parseOk : Bool
  hvNewOk : Bool
  cloneApiOk : Bool
  cloneExitOk : Bool
  cloneApi2Ok : Bool
  cloneExit2Ok : Bool
  spawnOk : Bool
  createOk : Bool
  bootOk : Bool
deriving DecidableEq

/-- API requests issued by `start`, in issue order. -/
inductive MEvent where
  | createRequested
  | bootRequested
deriving DecidableEq

/-- Tail of `start` (hypervisor.rs:374-412): the create-VM and boot-VM
API requests, entered with the thread handle already stored in `s1`.  A
failed send returns `ApiError`; `vm_created` is set only on create
success, and `vm_booted` together with the `Running` transition only on
boot success. -/
def start_requests (env : StartEnv) (s1 : ManagerState) :
    Except HypervisorError Unit × ManagerState × List MEvent :=
  if !env.createOk then (.error .ApiError, s1, [.createRequested])
  else
    let s2 := { s1 with vm_created := true }
    if !env.bootOk then (.error .ApiError, s2, [.createRequested, .bootRequested])
    else
      (.ok (), { s2 with vm_booted := true, state := .Running },
        [.createRequested, .bootRequested])

/-- `start` (hypervisor.rs:312-413), returning (result, state after the
call, API requests issued): the state check and the
`create_vm_params` missing-config check fail with `InvalidState`; the
Cloud Hypervisor config parse with `ParsingError`; `hypervisor::new`
with `HypervisorInitError`; the four event-fd clones with `IoError`; and
`start_vmm_thread` with `StartError`.  The thread handle is stored
before the create request is attempted. -/
def start (env : StartEnv) (s : ManagerState) :
    Except HypervisorError Unit × ManagerState × List MEvent :=
  if s.state ≠ .Configured then (.error .InvalidState, s, [])
  else if s.config = none then (.error .InvalidState, s, [])
  else if !env.parseOk then (.error .ParsingError, s, [])
  else if !env.hvNewOk then (.error .HypervisorInitError, s, [])
  else if !env.cloneApiOk then (.error .IoError, s, [])
  else if !env.cloneExitOk then (.error .IoError, s, [])
  else if !env.cloneApi2Ok then (.error .IoError, s, [])
  else if !env.cloneExit2Ok then (.error .IoError, s, [])
  else if !env.spawnOk then (.error .StartError, s, [])
  else start_requests env { s with vmm_thread_handle := true }

/-- Success/failure of each external call made by `shutdown`
(hypervisor.rs:416-472).  Only `cloneApiOk` influences control flow: the
graceful-send, exit-write, join and HTTP-teardown outcomes are logged and
discarded by the source, which is why those fields are never read. -/
structure ShutdownEnv where
  cloneApiOk : Bool
  gracefulOk : Bool
  exitWriteOk : Bool
  joinOk : Bool
  httpApiPresent : Bool
  httpShutdownOk : Bool
deriving DecidableEq

/-- Teardown steps attempted by `shutdown`, in attempt order. -/
inductive SEvent where
  | gracefulShutdownRequested
  | exitEventWritten
  | threadJoinAttempted
  | httpApiShutdownAttempted
deriving DecidableEq

/-- `shutdown` (hypervisor.rs:416-472).  Outside `Running`/`Paused` it is
an immediate `Ok` with nothing attempted.  With a live thread handle it
first clones the API event fd — that clone's failure is propagated with
`?` and nothing below it runs — then, if `vm_booted`, sends the graceful
shutdown request (result logged), always writes the exit event (result
logged), always joins the worker thread (result logged) and tears down
the HTTP API handle when present (result logged).  The final state
assignment to `Shutdown` with both progress booleans cleared runs
whenever the clone did not fail. -/
def shutdown (env : ShutdownEnv) (s : ManagerState) :
    Except HypervisorError Unit × ManagerState × List SEvent :=
  if s.state ≠ .Running ∧ s.state ≠ .Paused then (.ok (), s, [])
  else if s.vmm_thread_handle then
    if !env.cloneApiOk then (.error .IoError, s, [])
    else
      let evts :=
        (if s.vm_booted then [SEvent.gracefulShutdownRequested] else []) ++
        [SEvent.exitEventWritten, SEvent.threadJoinAttempted] ++
        (if env.httpApiPresent then [SEvent.httpApiShutdownAttempted] else [])
      (.ok (),
        { s with state := .Shutdown, vmm_thread_handle := false,
                 vm_created := false, vm_booted := false },
        evts)
  else
    (.ok (),
      { s with state := .Shutdown, vm_created := false, vm_booted := false },
      [])

/-- Outcomes of the two fallible external calls made by `info`
(hypervisor.rs:485-511). -/
structure InfoEnv where
  cloneApiOk : Bool
  infoOk : Bool
deriving DecidableEq

/-- `info` (hypervisor.rs:485-511).  Takes `&self` in the source, so the
returned manager state is always the input state unchanged. -/
def info (env : InfoEnv) (s : ManagerState) :
    Except HypervisorError String × ManagerState :=
  if s.state ≠ .Running then (.error .InvalidState, s)
  else if !env.cloneApiOk then (.error .IoError, s)
  else if !env.infoOk then (.error .ApiError, s)
  else (.ok "VM is running (state: active)", s)

/-! ### The daemon start path (`start_hypervisor`, main.rs:291-364) -/

/-- The fields of `HypervisorConfig` (main.rs:66-76) consumed by
`start_hypervisor`; the log path only feeds the logger. -/
structure HypervisorConfig where
  kernel_filepath : String
  system_image_filepath : String
  config_image_filepath : String
  cpu_count : Nat
  memory_config : String
  device_filepath_list : List String
  cmdline : String
  debug : Bool

/-- Failure sites of `start_hypervisor`, each corresponding to one `?` in
the source: signal-handler registration, the PID-marker write, manager
construction, memory parsing, and the three lifecycle calls. -/
inductive DaemonErr where
  | signalSetupError
  | pidWriteError
  | managerInitError
  | memoryParseError (e : ParseErr)
  | lifecycleError (e : HypervisorError)
deriving DecidableEq

/-- Observable steps of `start_hypervisor`, in program order. -/
inductive DEvent where
  | signalHandlersRegistered
  | pidMarkerWritten
  | signalThreadSpawned
  | managerConstructed
  | memoryParsed
  | managerConfigured
  | managerCreateRequested
  | managerBootRequested
  | enteredRunWait
  | shutdownInvoked
  | pidMarkerRemoved
deriving DecidableEq

/-- Renaming of the manager-level API request events into the daemon
trace. -/
def mEventToD : MEvent → DEvent
  | .createRequested => .managerCreateRequested
  | .bootRequested => .managerBootRequested

/-- Oracles for `start_hypervisor`: outcomes of its own fallible steps,
the generated VM UUID, the filesystem oracle, the oracles of the nested
`start`/`shutdown` calls, and whether the final PID-marker removal
succeeds (its failure is only logged, main.rs:357-359). -/
structure DaemonEnv where
  signalsOk : Bool
  savePidOk : Bool
  managerNewOk : Bool
  vmId : String
  fs : String → Bool
  startEnv : StartEnv
  shutdownEnv : ShutdownEnv
  removePidOk : Bool

/-- The `VmConfig` built at main.rs:322-332 from the environment-derived
configuration, the parsed memory descriptor and the generated UUID. -/
def daemonVmConfig (env : DaemonEnv) (cfg : HypervisorConfig) (mem : MemoryConfig) : VmConfig :=
  { id := env.vmId
    kernel_path := cfg.kernel_filepath
    cmdline := cfg.cmdline
    system_image_path := cfg.system_image_filepath
    config_image_path := cfg.config_image_filepath
    vcpu_count := cfg.cpu_count
    memory_config := mem
    device_paths := cfg.device_filepath_list
    debug := cfg.debug }

/-- Tail of `start_hypervisor` from the `start` call on (main.rs:338-359):
start the VM, block in the polling loop until the exit signal, shut
down, and remove the PID marker.  The marker removal happens only on
this all-success path; its own failure is merely logged (main.rs:357). -/
def daemon_phase_start (env : DaemonEnv) (m1 : ManagerState) :
    Except DaemonErr Unit × List DEvent :=
  let r := start env.startEnv m1
  let evs := r.2.2.map mEventToD
  match r.1 with
  | .error e => (.error (.lifecycleError e), evs)
  | .ok _ =>
    let sh := shutdown env.shutdownEnv r.2.1
    let evs2 := evs ++ [DEvent.enteredRunWait, DEvent.shutdownInvoked]
    match sh.1 with
    | .error e => (.error (.lifecycleError e), evs2)
    | .ok _ =>
      (.ok (), evs2 ++ (if env.removePidOk then [DEvent.pidMarkerRemoved] else []))

/-- Tail of `start_hypervisor` from the `configure` call on
(main.rs:335-359). -/
def daemon_phase_configure (env : DaemonEnv) (cfg : HypervisorConfig) (mem : MemoryConfig) :
    Except DaemonErr Unit × List DEvent :=
  match configure env.fs initialManager (daemonVmConfig env cfg mem) with
  | (.error e, _) => (.error (.lifecycleError e), [])
  | (.ok _, m1) =>
    let r := daemon_phase_start env m1
    (r.1, DEvent.managerConfigured :: r.2)

/-- `start_hypervisor` after the PID marker has been written and the
signal thread spawned (main.rs:312-363): construct the manager, parse the
memory descriptor, build the `VmConfig`, then configure/start/wait/shut
down.  Each `?` in the source propagates as the corresponding
`DaemonErr`. -/
def start_hypervisor_after_pid (env : DaemonEnv) (cfg : HypervisorConfig) :
    Except DaemonErr Unit × List DEvent :=
  if !env.managerNewOk then (.error .managerInitError, [])
  else
    match parse_memory_string cfg.memory_config with
    | .error e => (.error (.memoryParseError e), [.managerConstructed])
    | .ok mem =>
      let r := daemon_phase_configure env cfg mem
      (r.1, DEvent.managerConstructed :: DEvent.memoryParsed :: r.2)

/-- `start_hypervisor` (main.rs:291-364): register signal handlers
(main.rs:299), write the PID marker (`save_vm_pid()?`, main.rs:303),
spawn the signal thread (main.rs:305), then everything else.  The marker
write precedes the construction of the `HypervisorManager`. -/
def start_hypervisor (env : DaemonEnv) (cfg : HypervisorConfig) :
    Except DaemonErr Unit × List DEvent :=
  if !env.signalsOk then (.error .signalSetupError, [])
  else if !env.savePidOk then (.error .pidWriteError, [.signalHandlersRegistered])
  else
    let r := start_hypervisor_after_pid env cfg
    (r.1, .signalHandlersRegistered :: .pidMarkerWritten :: .signalThreadSpawned :: r.2)

/-! ### Concrete fixtures used by the theorems below -/

/-- A filesystem oracle on which every path exists. -/
def fsTrue : String → Bool := fun _ => true

/-- A well-formed launch configuration (positive vCPU count and memory
size, one passthrough device). -/
def cfgValid : VmConfig :=
  { id := "vm-a"
    kernel_path := "/boot/vmlinux"
    cmdline := ""
    system_image_path := "/img/system.raw"
    config_image_path := "/img/config.raw"
    vcpu_count := 4
    memory_config := { size := 16 * 1024 * 1024 * 1024, shared := true,
                       hugepages := false, shared_memory_size := none }
    device_paths := ["/dev/vfio/1"]
    debug := false }

/-- A launch configuration whose vCPU count and memory size are both
zero (all referenced paths exist under `fsTrue`). -/
def cfgZero : VmConfig :=
  { cfgValid with
      vcpu_count := 0
      memory_config := { size := 0, shared := false, hugepages := false,
                         shared_memory_size := none } }

/-- A manager that has been configured but not started. -/
def sConfigured : ManagerState :=
  { state := .Configured, config := some cfgValid, vmm_thread_handle := false,
    vm_created := false, vm_booted := false }

/-- A manager in the `Running` state, as produced by a successful
`configure`-then-`start` run. -/
def sRunning : ManagerState :=
  { state := .Running, config := some cfgValid, vmm_thread_handle := true,
    vm_created := true, vm_booted := true }

/-- A manager that has completed `shutdown`. -/
def sShutdownSt : ManagerState :=
  { state := .Shutdown, config := some cfgValid, vmm_thread_handle := false,
    vm_created := false, vm_booted := false }

/-- A `start` run in which every external call succeeds. -/
def envStartAll : StartEnv :=
  { parseOk := true, hvNewOk := true, cloneApiOk := true, cloneExitOk := true,
    cloneApi2Ok := true, cloneExit2Ok := true, spawnOk := true,
    createOk := true, bootOk := true }

/-- A `start` run in which everything succeeds up to the create-VM
request, which fails. -/
def envStartCreateFail : StartEnv :=
  { envStartAll with createOk := false }

/-- A `shutdown` run in which every external call succeeds (no HTTP API
handle present). -/
def envShutdownAll : ShutdownEnv :=
  { cloneApiOk := true, gracefulOk := true, exitWriteOk := true, joinOk := true,
    httpApiPresent := false, httpShutdownOk := true }

/-- A `shutdown` run in which the initial API event-fd clone fails. -/
def envShutdownCloneFail : ShutdownEnv :=
  { envShutdownAll with cloneApiOk := false }

/-- A `shutdown` run in which the clone succeeds but every later teardown
step (graceful request, exit write, join, HTTP teardown) fails. -/
def envShutdownStepsFail : ShutdownEnv :=
  { cloneApiOk := true, gracefulOk := false, exitWriteOk := false,
    joinOk := false, httpApiPresent := true, httpShutdownOk := false }

/-- An `info` run in which both external calls succeed. -/
def ienvAll : InfoEnv :=
  { cloneApiOk := true, infoOk := true }

/-- A daemon configuration with the default memory descriptor. -/
def hcfgAll : HypervisorConfig :=
  { kernel_filepath := "/boot/vmlinux"
    system_image_filepath := "/img/system.raw"
    config_image_filepath := "/img/config.raw"
    cpu_count := 4
    memory_config := "size=16G,shared=on"
    device_filepath_list := []
    cmdline := ""
    debug := false }

/-- A daemon run in which every external call succeeds. -/
def denvAll : DaemonEnv :=
  { signalsOk := true, savePidOk := true, managerNewOk := true, vmId := "vm-a",
    fs := fsTrue, startEnv := envStartAll, shutdownEnv := envShutdownAll,
    removePidOk := true }

/-- A daemon run in which everything succeeds up to the create-VM
request, which fails. -/
def denvCreateFail : DaemonEnv :=
  { denvAll with startEnv := envStartCreateFail }

/-! ### Helper lemmas -/

/-- `splitn(2, '=')` on a string whose key part contains no `=` yields
exactly the key and the (unsplit) value. -/
theorem splitnTwoEqGo_append (v : List Char) :
    ∀ (k acc : List Char), '=' ∉ k →
      splitnTwoEqGo acc (k ++ '=' :: v) = [acc.reverse ++ k, v] := by
  intro k
  induction k with
  | nil =>
    intro acc h
    simp [splitnTwoEqGo]
  | cons c k ih =>
    intro acc h
    have hc : ¬c = '=' := by
      rintro rfl
      exact h (List.mem_cons_self _ _)
    rw [List.cons_append]
    simp only [splitnTwoEqGo]
    rw [if_neg hc, ih (c :: acc) (fun hm => h (List.mem_cons_of_mem c hm))]
    simp

/-- The manager-level API events never map to the PID-removal daemon
event. -/
theorem mEventToD_ne_pidRemoved (x : MEvent) :
    mEventToD x ≠ DEvent.pidMarkerRemoved := by
  cases x <;> simp [mEventToD]

/-- If the create-VM request fails, the create/boot tail of `start`
returns the `ApiError` without touching `vm_created` or `vm_booted`. -/
theorem start_requests_create_fail (env : StartEnv) (s1 : ManagerState)
    (h : env.createOk = false) :
    start_requests env s1 = (.error .ApiError, s1, [.createRequested]) := by
  simp [start_requests, h]

/-- If the create-VM request fails, `start` cannot return success. -/
theorem start_create_fail_not_ok (env : StartEnv) (s : ManagerState)
    (h : env.createOk = false) : (start env s).1 ≠ .ok () := by
  intro hok
  unfold start at hok
  rw [start_requests_create_fail env _ h] at hok
  split_ifs at hok

/-- If the create-VM request fails, the start-onward phase of the daemon
errors out and never reaches the PID-marker removal. -/
theorem daemon_phase_start_create_fail (env : DaemonEnv) (m1 : ManagerState)
    (h : env.startEnv.createOk = false) :
    (daemon_phase_start env m1).1 ≠ .ok () ∧
    DEvent.pidMarkerRemoved ∉ (daemon_phase_start env m1).2 := by
  unfold daemon_phase_start
  rcases hr : (start env.startEnv m1).1 with e | u
  · simp [hr, mEventToD_ne_pidRemoved]
  · exact absurd hr (start_create_fail_not_ok env.startEnv m1 h)

/-- If the create-VM request fails, the configure-onward phase of the
daemon errors out and never reaches the PID-marker removal. -/
theorem daemon_phase_configure_create_fail (env : DaemonEnv) (cfg : HypervisorConfig)
    (mem : MemoryConfig) (h : env.startEnv.createOk = false) :
    (daemon_phase_configure env cfg mem).1 ≠ .ok () ∧
    DEvent.pidMarkerRemoved ∉ (daemon_phase_configure env cfg mem).2 := by
  unfold daemon_phase_configure
  rcases hc : configure env.fs initialManager (daemonVmConfig env cfg mem) with ⟨ra, m1⟩
  cases ra
  · simp
  · have := daemon_phase_start_create_fail env m1 h
    simp [this.1, this.2]

/-- If the create-VM request fails, the post-PID part of the daemon start
path errors out and never reaches the PID-marker removal. -/
theorem after_pid_create_fail (env : DaemonEnv) (cfg : HypervisorConfig)
    (h : env.startEnv.createOk = false) :
    (start_hypervisor_after_pid env cfg).1 ≠ .ok () ∧
    DEvent.pidMarkerRemoved ∉ (start_hypervisor_after_pid env cfg).2 := by
  unfold start_hypervisor_after_pid
  cases hm : env.managerNewOk
  · simp [hm]
  · rcases hp : parse_memory_string cfg.memory_config with e | mem
    · simp [hm, hp]
    · have := daemon_phase_configure_create_fail env cfg mem h
      simp [hm, hp, this.1, this.2]

/-- Once the signal handlers are registered and the PID marker written,
the daemon trace is the three fixed prologue events followed by the
post-PID trace. -/
theorem start_hypervisor_eq (env : DaemonEnv) (cfg : HypervisorConfig)
    (h1 : env.signalsOk = true) (h2 : env.savePidOk = true) :
    start_hypervisor env cfg =
      ((start_hypervisor_after_pid env cfg).1,
        .signalHandlersRegistered :: .pidMarkerWritten :: .signalThreadSpawned ::
          (start_hypervisor_after_pid env cfg).2) := by
  simp [start_hypervisor, h1, h2]

/-- After a `shutdown` whose initial event-fd clone succeeded (or that
had nothing to tear down), the manager's state is never `Running` or
`Paused`. -/
theorem shutdown_state_after (env : ShutdownEnv) (s : ManagerState)
    (hc : env.cloneApiOk = true) :
    (shutdown env s).2.1.state ≠ .Running ∧ (shutdown env s).2.1.state ≠ .Paused := by
  by_cases hr : s.state = .Running ∨ s.state = .Paused
  · rcases hr with h | h <;> cases hh : s.vmm_thread_handle <;>
      simp [shutdown, h, hh, hc]
  · push_neg at hr
    simp [shutdown, hr.1, hr.2]

/-! ### Claim theorems -/

/-- C10: passing the empty string to the memory parser yields the
malformed-pair parsing error, not the documented defaults — splitting
`""` on `','` produces one empty piece, whose `splitn(2, '=')` has only
one element. -/
theorem parse_memory_string_empty_is_error :
    parse_memory_string "" = .error .invalidFormat := by decide

/-- C6: `"size=16G,shared=on"` parses to 16 × 1024³ bytes with shared set
and hugepages clear; `"size=512M,hugepages=yes"` parses to 512 × 1024²
bytes with shared clear (the default) and hugepages set; the unit
suffixes `K/M/G/T` are case-insensitive powers of 1024; and a bare-digit
size means bytes (multiplier 1), both in general and on the concrete
input `"size=4096"`. -/
theorem parse_memory_string_units_and_examples :
    (∀ c : Char, isDigit10 c = true → sizeMultiplier (some c) = .ok 1) ∧
    parse_memory_string "size=16G,shared=on" =
      .ok { size := 16 * 1024 * 1024 * 1024, shared := true, hugepages := false,
            shared_memory_size := none } ∧
    parse_memory_string "size=512M,hugepages=yes" =
      .ok { size := 512 * 1024 * 1024, shared := false, hugepages := true,
            shared_memory_size := none } ∧
    sizeMultiplier (some 'K') = .ok 1024 ∧
    sizeMultiplier (some 'k') = .ok 1024 ∧
    sizeMultiplier (some 'M') = .ok (1024 * 1024) ∧
    sizeMultiplier (some 'm') = .ok (1024 * 1024) ∧
    sizeMultiplier (some 'G') = .ok (1024 * 1024 * 1024) ∧
    sizeMultiplier (some 'g') = .ok (1024 * 1024 * 1024) ∧
    sizeMultiplier (some 'T') = .ok (1024 * 1024 * 1024 * 1024) ∧
    sizeMultiplier (some 't') = .ok (1024 * 1024 * 1024 * 1024) ∧
    parse_memory_string "size=4096" = .ok { defaultMemoryConfig with size := 4096 } ∧
    parse_memory_string "size=2g" =
      .ok { defaultMemoryConfig with size := 2 * 1024 * 1024 * 1024 } := by
  refine ⟨?_, by decide, by decide, by decide, by decide, by decide, by decide,
    by decide, by decide, by decide, by decide, by decide, by decide⟩
  intro c h
  simp only [sizeMultiplier]
  split_ifs with h1 h2 h3 h4
  · rcases h1 with rfl | rfl <;> exact absurd h (by decide)
  · rcases h2 with rfl | rfl <;> exact absurd h (by decide)
  · rcases h3 with rfl | rfl <;> exact absurd h (by decide)
  · rcases h4 with rfl | rfl <;> exact absurd h (by decide)
  · rfl

/-- C6 witness: the bare-digit multiplier fact applied at the digit
`'7'`. -/
theorem parse_memory_string_units_and_examples_witness :
    sizeMultiplier (some '7') = .ok 1 :=
  parse_memory_string_units_and_examples.1 '7' (by decide)

/-- C7: the memory parser fails exactly at the four error sites — a pair
without `=`, an unrecognized size unit, an unparsable size number, and an
unrecognized boolean token for `shared`/`hugepages` (one concrete input
per site below, and the error type has no other inhabitants) — while a
pair whose key is none of `size`/`shared`/`hugepages` is always accepted
unchanged, never rejected (first conjunct, fully general). -/
theorem parse_memory_string_error_modes :
    (∀ (cfg : MemoryConfig) (k v : List Char),
       '=' ∉ k →
       trimChars k ≠ "size".toList →
       trimChars k ≠ "shared".toList →
       trimChars k ≠ "hugepages".toList →
       processPart cfg (k ++ '=' :: v) = .ok cfg) ∧
    parse_memory_string "foo=bar" = .ok defaultMemoryConfig ∧
    parse_memory_string "nodelimiter" = .error .invalidFormat ∧
    parse_memory_string "size=abc" = .error .invalidSizeUnit ∧
    parse_memory_string "size=1x2K" = .error .sizeParseFailure ∧
    parse_memory_string "shared=maybe" = .error .invalidSharedValue ∧
    parse_memory_string "hugepages=maybe" = .error .invalidHugepagesValue ∧
    (∀ (l : List Char) (e : ParseErr), parse_memory_config l = .error e →
       e = .invalidFormat ∨ e = .invalidSizeUnit ∨ e = .sizeParseFailure ∨
       e = .invalidSharedValue ∨ e = .invalidHugepagesValue) := by
  refine ⟨?_, by decide, by decide, by decide, by decide, by decide, by decide, ?_⟩
  · intro cfg k v h1 h2 h3 h4
    have h2l : trimChars k ≠ ['s', 'i', 'z', 'e'] := h2
    have h3l : trimChars k ≠ ['s', 'h', 'a', 'r', 'e', 'd'] := h3
    have h4l : trimChars k ≠ ['h', 'u', 'g', 'e', 'p', 'a', 'g', 'e', 's'] := h4
    unfold processPart splitnTwoEq
    rw [splitnTwoEqGo_append v k [] h1]
    simp only [List.reverse_nil, List.nil_append]
    simp [processKV, h2l, h3l, h4l]
  · intro l e _
    cases e <;> simp

/-- C7 witness: the general unknown-key conjunct applied to the pair
`foo=bar`, and the error-site classification applied to the empty
descriptor. -/
theorem parse_memory_string_error_modes_witness :
    processPart defaultMemoryConfig ("foo".toList ++ '=' :: "bar".toList) =
      .ok defaultMemoryConfig ∧
    (ParseErr.invalidFormat = .invalidFormat ∨ ParseErr.invalidFormat = .invalidSizeUnit ∨
     ParseErr.invalidFormat = .sizeParseFailure ∨ ParseErr.invalidFormat = .invalidSharedValue ∨
     ParseErr.invalidFormat = .invalidHugepagesValue) :=
  ⟨parse_memory_string_error_modes.1 defaultMemoryConfig "foo".toList "bar".toList
      (by decide) (by decide) (by decide) (by decide),
   parse_memory_string_error_modes.2.2.2.2.2.2.2 "".toList .invalidFormat (by decide)⟩

/-- C2: `configure` outside `Created`, `start` outside `Configured` and
`info` outside `Running` each fail with `InvalidState` and return the
manager state (including the stored configuration) entirely unchanged. -/
theorem invalid_state_calls_rejected :
    ∀ (fs : String → Bool) (c : VmConfig) (senv : StartEnv) (ienv : InfoEnv)
      (s : ManagerState),
      (s.state ≠ .Created → configure fs s c = (.error .InvalidState, s)) ∧
      (s.state ≠ .Configured → start senv s = (.error .InvalidState, s, [])) ∧
      (s.state ≠ .Running → info ienv s = (.error .InvalidState, s)) := by
  intro fs c senv ienv s
  refine ⟨fun h => ?_, fun h => ?_, fun h => ?_⟩
  · simp [configure, h]
  · simp [start, h]
  · simp [info, h]

/-- C2 witness: all three rejections at a manager in the `Shutdown`
state. -/
theorem invalid_state_calls_rejected_witness :
    configure fsTrue sShutdownSt cfgValid = (.error .InvalidState, sShutdownSt) ∧
    start envStartAll sShutdownSt = (.error .InvalidState, sShutdownSt, []) ∧
    info ienvAll sShutdownSt = (.error .InvalidState, sShutdownSt) := by
  obtain ⟨h1, h2, h3⟩ :=
    invalid_state_calls_rejected fsTrue cfgValid envStartAll ienvAll sShutdownSt
  exact ⟨h1 (by decide), h2 (by decide), h3 (by decide)⟩

/-- C3: when every step of `start` up to the create-VM request succeeds
but the create-VM request fails, `start` returns `ApiError` and the
manager is still `Configured` (neither `Error` nor `Running`) with
`vm_created` and `vm_booted` both still false. -/
theorem start_create_failure_leaves_configured :
    ∀ (env : StartEnv) (s : ManagerState),
      s.state = .Configured → s.config ≠ none →
      s.vm_created = false → s.vm_booted = false →
      env.parseOk = true → env.hvNewOk = true →
      env.cloneApiOk = true → env.cloneExitOk = true →
      env.cloneApi2Ok = true → env.cloneExit2Ok = true →
      env.spawnOk = true → env.createOk = false →
      (start env s).1 = .error .ApiError ∧
      (start env s).2.1.state = .Configured ∧
      (start env s).2.1.vm_created = false ∧
      (start env s).2.1.vm_booted = false := by
  intro env s hst hcfg hvc hvb h1 h2 h3 h4 h5 h6 h7 h8
  unfold start
  rw [start_requests_create_fail env _ h8]
  simp [hst, hcfg, hvc, hvb, h1, h2, h3, h4, h5, h6, h7]

/-- C3 witness: a configured manager whose create-VM request fails. -/
theorem start_create_failure_leaves_configured_witness :
    (start envStartCreateFail sConfigured).1 = .error .ApiError ∧
    (start envStartCreateFail sConfigured).2.1.state = .Configured ∧
    (start envStartCreateFail sConfigured).2.1.vm_created = false ∧
    (start envStartCreateFail sConfigured).2.1.vm_booted = false :=
  start_create_failure_leaves_configured envStartCreateFail sConfigured
    (by decide) (by decide) (by decide) (by decide) (by decide) (by decide)
    (by decide) (by decide) (by decide) (by decide) (by decide) (by decide)

/-- C1 counterexample: from `Running`, when the API event-fd clone at the
top of the teardown fails, `shutdown` propagates the `IoError` to the
caller and leaves the state `Running`, not `Shutdown` — so the claim that
shutdown always returns success and that no error arising during the
shutdown sequence is propagated is false on the code. -/
theorem shutdown_clone_failure_propagates :
    sRunning.state = .Running ∧
    (shutdown envShutdownCloneFail sRunning).1 = .error .IoError ∧
    (shutdown envShutdownCloneFail sRunning).2.1 = sRunning := by decide

/-- C1 (amended): from `Running` or `Paused`, provided the initial API
event-fd clone succeeds, `shutdown` returns success and ends in the
`Shutdown` state no matter how the graceful shutdown request, the
exit-event write, the thread join or the HTTP teardown fare — those
outcomes are swallowed (logged only). -/
theorem shutdown_best_effort_reaches_shutdown :
    ∀ (env : ShutdownEnv) (s : ManagerState),
      (s.state = .Running ∨ s.state = .Paused) →
      env.cloneApiOk = true →
      (shutdown env s).1 = .ok () ∧ (shutdown env s).2.1.state = .Shutdown := by
  intro env s hs hc
  rcases hs with h | h <;> cases hh : s.vmm_thread_handle <;>
    simp [shutdown, h, hh, hc]

/-- C1 witness: a running, booted manager whose graceful request, exit
write, join and HTTP teardown all fail still reaches `Shutdown` with a
success result. -/
theorem shutdown_best_effort_reaches_shutdown_witness :
    (shutdown envShutdownStepsFail sRunning).1 = .ok () ∧
    (shutdown envShutdownStepsFail sRunning).2.1.state = .Shutdown :=
  shutdown_best_effort_reaches_shutdown envShutdownStepsFail sRunning (Or.inl rfl) rfl

/-- C4 counterexample: from `Running` with the boot step completed, a
failing API event-fd clone aborts `shutdown` before any teardown step, so
the graceful shutdown request is not sent even though `vm_booted` is true
— refuting the unconditional "sent if and only if boot completed". -/
theorem shutdown_clone_failure_skips_graceful :
    sRunning.vm_booted = true ∧
    SEvent.gracefulShutdownRequested ∉ (shutdown envShutdownCloneFail sRunning).2.2 := by
  decide

/-- C4 (amended): in `shutdown` from `Running` or `Paused` with the
worker-thread handle present (always the case when `Running` is reached)
and the initial API event-fd clone succeeding, the graceful shutdown
request is attempted if and only if `vm_booted`; when attempted it
strictly precedes the exit-event write, and the exit-event write strictly
precedes the thread-join attempt. -/
theorem shutdown_step_ordering :
    ∀ (env : ShutdownEnv) (s : ManagerState),
      (s.state = .Running ∨ s.state = .Paused) →
      s.vmm_thread_handle = true →
      env.cloneApiOk = true →
      (SEvent.gracefulShutdownRequested ∈ (shutdown env s).2.2 ↔ s.vm_booted = true) ∧
      SEvent.exitEventWritten ∈ (shutdown env s).2.2 ∧
      SEvent.threadJoinAttempted ∈ (shutdown env s).2.2 ∧
      (s.vm_booted = true →
        (shutdown env s).2.2.indexOf SEvent.gracefulShutdownRequested <
          (shutdown env s).2.2.indexOf SEvent.exitEventWritten) ∧
      (shutdown env s).2.2.indexOf SEvent.exitEventWritten <
        (shutdown env s).2.2.indexOf SEvent.threadJoinAttempted := by
  intro env s hs hh hc
  rcases hs with h | h <;> cases hb : s.vm_booted <;> cases hp : env.httpApiPresent <;>
    simp [shutdown, h, hh, hc, hb, hp]

/-- C4 witness: the ordering at a running, booted manager whose later
teardown steps all fail. -/
theorem shutdown_step_ordering_witness :
    SEvent.gracefulShutdownRequested ∈ (shutdown envShutdownStepsFail sRunning).2.2 ∧
    (shutdown envShutdownStepsFail sRunning).2.2.indexOf SEvent.exitEventWritten <
      (shutdown envShutdownStepsFail sRunning).2.2.indexOf SEvent.threadJoinAttempted := by
  obtain ⟨hg, -, -, -, ho⟩ :=
    shutdown_step_ordering envShutdownStepsFail sRunning (Or.inl rfl) rfl rfl
  exact ⟨hg.mpr rfl, ho⟩

/-- C5 counterexample: `configure` accepts a specification whose vCPU
count and memory size are both zero (all referenced paths existing), so
the claimed validation invariant "vCPU count > 0 and size > 0" is not
enforced by the code — `validate_config` checks only path existence. -/
theorem configure_accepts_zero_vcpu_and_zero_memory :
    cfgZero.vcpu_count = 0 ∧
    cfgZero.memory_config.size = 0 ∧
    (configure fsTrue initialManager cfgZero).1 = .ok () ∧
    (configure fsTrue initialManager cfgZero).2.state = .Configured := by decide

/-- C5 (amended): every specification accepted by `configure` satisfies
the part of the invariant the code does enforce — the kernel, system
image and config image paths and every passthrough device path exist at
validation time.  Positivity of the vCPU count and of the memory size is
not checked. -/
theorem configure_accepted_implies_paths_exist :
    ∀ (fs : String → Bool) (s : ManagerState) (c : VmConfig),
      (configure fs s c).1 = .ok () →
      fs c.kernel_path = true ∧ fs c.system_image_path = true ∧
      fs c.config_image_path = true ∧ ∀ p ∈ c.device_paths, fs p = true := by
  intro fs s c h
  unfold configure at h
  split_ifs at h
  rcases hv : validate_config fs c with e | u
  · rw [hv] at h
    exact absurd h (by simp)
  · unfold validate_config at hv
    split_ifs at hv with h1 h2 h3 h4
    refine ⟨?_, ?_, ?_, ?_⟩
    · cases hb : fs c.kernel_path
      · exact absurd (by simp [hb]) h1
      · rfl
    · cases hb : fs c.system_image_path
      · exact absurd (by simp [hb]) h2
      · rfl
    · cases hb : fs c.config_image_path
      · exact absurd (by simp [hb]) h3
      · rfl
    · intro p hp
      cases hb : fs p
      · exact absurd (List.any_eq_true.mpr ⟨p, hp, by simp [hb]⟩) h4
      · rfl

/-- C5 witness: the path-existence consequence at a successfully
configured valid specification. -/
theorem configure_accepted_implies_paths_exist_witness :
    fsTrue cfgValid.kernel_path = true ∧ fsTrue cfgValid.system_image_path = true ∧
    fsTrue cfgValid.config_image_path = true := by
  obtain ⟨h1, h2, h3, -⟩ :=
    configure_accepted_implies_paths_exist fsTrue initialManager cfgValid (by decide)
  exact ⟨h1, h2, h3⟩

/-- C9: outside `Running`/`Paused` (so in particular in `Shutdown`,
`Created` or `Configured`), `shutdown` returns success with the state
untouched and an empty teardown trace — no backend request, no exit-event
write, no join; consequently a second `shutdown` right after a first one
whose event-fd clone succeeded is exactly such a no-op. -/
theorem shutdown_noop_outside_running_paused :
    ∀ (env env2 : ShutdownEnv) (s : ManagerState),
      (s.state ≠ .Running → s.state ≠ .Paused → shutdown env s = (.ok (), s, [])) ∧
      (env.cloneApiOk = true →
        shutdown env2 ((shutdown env s).2.1) = (.ok (), (shutdown env s).2.1, [])) := by
  intro env env2 s
  constructor
  · intro h1 h2
    simp [shutdown, h1, h2]
  · intro hc
    obtain ⟨e1, e2⟩ := shutdown_state_after env s hc
    generalize hgen : (shutdown env s).2.1 = s1 at e1 e2 ⊢
    simp [shutdown, e1, e2]

/-- C9 witness: the no-op on an already-shut-down manager, and the
second of two successive calls starting from `Running`. -/
theorem shutdown_noop_outside_running_paused_witness :
    shutdown envShutdownAll sShutdownSt = (.ok (), sShutdownSt, []) ∧
    shutdown envShutdownAll ((shutdown envShutdownAll sRunning).2.1) =
      (.ok (), (shutdown envShutdownAll sRunning).2.1, []) := by
  obtain ⟨ha, -⟩ :=
    shutdown_noop_outside_running_paused envShutdownAll envShutdownAll sShutdownSt
  obtain ⟨-, hb⟩ :=
    shutdown_noop_outside_running_paused envShutdownAll envShutdownAll sRunning
  exact ⟨ha (by decide) (by decide), hb rfl⟩

/-- C8 counterexample: on a fully successful daemon run the PID marker is
written at trace position 1 while the controller is only constructed at
position 3 — the marker write happens before, not after, the controller
is fully constructed. -/
theorem pid_marker_written_before_manager_constructed :
    DEvent.pidMarkerWritten ∈ (start_hypervisor denvAll hcfgAll).2 ∧
    DEvent.managerConstructed ∈ (start_hypervisor denvAll hcfgAll).2 ∧
    (start_hypervisor denvAll hcfgAll).2.indexOf DEvent.pidMarkerWritten = 1 ∧
    (start_hypervisor denvAll hcfgAll).2.indexOf DEvent.managerConstructed = 3 ∧
    (start_hypervisor denvAll hcfgAll).1 = .ok () := by decide

/-- C8 (amended): once signal registration and the marker write succeed,
the PID marker is written before the controller is constructed and before
the create-VM and boot-VM requests are issued; and if the create-VM
request fails the run returns an error without ever removing the marker,
leaving it behind as a stale marker. -/
theorem pid_marker_ordering_and_staleness :
    ∀ (env : DaemonEnv) (cfg : HypervisorConfig),
      env.signalsOk = true → env.savePidOk = true →
      DEvent.pidMarkerWritten ∈ (start_hypervisor env cfg).2 ∧
      (start_hypervisor env cfg).2.indexOf DEvent.pidMarkerWritten <
        (start_hypervisor env cfg).2.indexOf DEvent.managerConstructed ∧
      (start_hypervisor env cfg).2.indexOf DEvent.pidMarkerWritten <
        (start_hypervisor env cfg).2.indexOf DEvent.managerCreateRequested ∧
      (start_hypervisor env cfg).2.indexOf DEvent.pidMarkerWritten <
        (start_hypervisor env cfg).2.indexOf DEvent.managerBootRequested ∧
      (env.startEnv.createOk = false →
        (start_hypervisor env cfg).1 ≠ .ok () ∧
        DEvent.pidMarkerRemoved ∉ (start_hypervisor env cfg).2) := by
  intro env cfg h1 h2
  rw [start_hypervisor_eq env cfg h1 h2]
  have hpid :
      (DEvent.signalHandlersRegistered :: DEvent.pidMarkerWritten ::
        DEvent.signalThreadSpawned :: (start_hypervisor_after_pid env cfg).2).indexOf
          DEvent.pidMarkerWritten = 1 := by
    rw [List.indexOf_cons_ne _ (by decide), List.indexOf_cons_self]
  refine ⟨by simp, ?_, ?_, ?_, ?_⟩
  · rw [hpid, List.indexOf_cons_ne _ (by decide), List.indexOf_cons_ne _ (by decide),
      List.indexOf_cons_ne _ (by decide)]
    omega
  · rw [hpid, List.indexOf_cons_ne _ (by decide), List.indexOf_cons_ne _ (by decide),
      List.indexOf_cons_ne _ (by decide)]
    omega
  · rw [hpid, List.indexOf_cons_ne _ (by decide), List.indexOf_cons_ne _ (by decide),
      List.indexOf_cons_ne _ (by decide)]
    omega
  · intro hcf
    obtain ⟨ha, hb⟩ := after_pid_create_fail env cfg hcf
    exact ⟨ha, by simp [hb]⟩

/-- C8 witness: a daemon run whose create-VM request fails has written
the PID marker, errors out, and never removes the marker. -/
theorem pid_marker_ordering_and_staleness_witness :
    DEvent.pidMarkerWritten ∈ (start_hypervisor denvCreateFail hcfgAll).2 ∧
    (start_hypervisor denvCreateFail hcfgAll).1 ≠ .ok () ∧
    DEvent.pidMarkerRemoved ∉ (start_hypervisor denvCreateFail hcfgAll).2 := by
  obtain ⟨hmem, -, -, -, hcf⟩ :=
    pid_marker_ordering_and_staleness denvCreateFail hcfgAll rfl rfl
  obtain ⟨ha, hb⟩ := hcf rfl
  exact ⟨hmem, ha, hb⟩

end Vllmd
